import Mathlib

/-!
Verification development for the object-cut image toolkit (`gen.py`).

The geometric core of the three operations (`square`, `mask`, `highlight`)
is embedded as executable Lean definitions.  Detection-box coordinates are
modelled as integers, padding ratios as exact rationals; Python's floor
division `//` becomes `Int.fdiv` and Python's `int()` conversion becomes
`pyInt` (truncation toward zero).  (On all concrete inputs appearing below,
the binary floating-point evaluation of `base_size * (1 + padding_ratio*2)`
agrees with the exact rational value, so the rational model is faithful to
the source on those inputs.)  Filesystem behaviour (directory creation,
file writes) is modelled as an explicit effect list, and the blur/composite
step of `highlight` is modelled per pixel, with the sharp and blurred
images kept abstract as pixel functions.
-/

/-- Python's `int()` applied to an exact rational: truncation toward zero. -/
def pyInt (q : ℚ) : ℤ := q.num.sign * ((q.num.natAbs / q.den : ℕ) : ℤ)

/-- The `GenSquareType` enumeration of detector categories. -/
inductive GenSquareType where
  | head | eyes | faces | censors | nudenet | mongo | opai | armpits | feet
deriving DecidableEq

/-- The string value of each `GenSquareType` member (Python `StrEnum`). -/
def GenSquareType.str : GenSquareType → String
  | .head => "head"
  | .eyes => "eyes"
  | .faces => "faces"
  | .censors => "censors"
  | .nudenet => "nudenet"
  | .mongo => "mongo"
  | .opai => "opai"
  | .armpits => "armpits"
  | .feet => "feet"

/-- The `detector` registry: every enumeration member is mapped to a
detection function (modelled by its name, since the detect module is an
external collaborator). -/
def detector : GenSquareType → Option String
  | .head => some "detect.head"
  | .eyes => some "detect.eyes"
  | .faces => some "detect.faces"
  | .censors => some "detect.censors"
  | .nudenet => some "detect.nudenet"
  | .mongo => some "detect.nudenet_mongo"
  | .opai => some "detect.nudenet_opai"
  | .armpits => some "detect.nudenet_armpits"
  | .feet => some "detect.nudenet_feet"

/-- A detection bounding box `(x0, y0, x1, y1)` in pixel coordinates. -/
structure Box where
  x0 : ℤ
  y0 : ℤ
  x1 : ℤ
  y1 : ℤ
deriving DecidableEq

/-- One element of the detector's result list: `(box, label, score)`. -/
structure DetResult where
  box : Box
  label : String
  score : ℚ
deriving DecidableEq

/-- An input image path together with its stem (`Path.stem`). -/
structure ImgPath where
  raw : String
  stem : String
deriving DecidableEq

/-- Observable filesystem effects of one operation, in order. -/
inductive FsEffect where
  | ensureDir (dir : String)
  | writeFile (path : String)
deriving DecidableEq

/-- `base_size = max(x1 - x0, y1 - y0)` (gen.py line 72). -/
def baseSize (b : Box) : ℤ := max (b.x1 - b.x0) (b.y1 - b.y0)

/-- `expanded_size = int(base_size * (1 + padding_ratio * 2))` (line 73). -/
def expandedSize (p : ℚ) (b : Box) : ℤ :=
  pyInt ((baseSize b : ℚ) * (1 + p * 2))

/-- `center_x = (x0 + x1) // 2` (line 70). -/
def centerX (b : Box) : ℤ := (b.x0 + b.x1).fdiv 2

/-- `center_y = (y0 + y1) // 2` (line 71). -/
def centerY (b : Box) : ℤ := (b.y0 + b.y1).fdiv 2

/-- `half_size = expanded_size // 2` (line 76). -/
def halfSize (p : ℚ) (b : Box) : ℤ := (expandedSize p b).fdiv 2

/-- `min(img_width, center_x + half_size) - max(0, center_x - half_size)`:
the width of the naive crop after clamping each edge (lines 77-80, 83). -/
def clampedSpanX (W : ℤ) (p : ℚ) (b : Box) : ℤ :=
  min W (centerX b + halfSize p b) - max 0 (centerX b - halfSize p b)

/-- The height of the naive crop after clamping each edge (lines 78-80, 83). -/
def clampedSpanY (H : ℤ) (p : ℚ) (b : Box) : ℤ :=
  min H (centerY b + halfSize p b) - max 0 (centerY b - halfSize p b)

/-- `square_size = min(crop_x1 - crop_x0, crop_y1 - crop_y0)` (line 83). -/
def squareSize (W H : ℤ) (p : ℚ) (b : Box) : ℤ :=
  min (clampedSpanX W p b) (clampedSpanY H p b)

/-- `new_crop_x0 = max(0, min(center_x - square_size // 2, img_width - square_size))`
(line 85). -/
def newCropX0 (W H : ℤ) (p : ℚ) (b : Box) : ℤ :=
  max 0 (min (centerX b - (squareSize W H p b).fdiv 2) (W - squareSize W H p b))

/-- `new_crop_y0` (line 86). -/
def newCropY0 (W H : ℤ) (p : ℚ) (b : Box) : ℤ :=
  max 0 (min (centerY b - (squareSize W H p b).fdiv 2) (H - squareSize W H p b))

/-- The final crop rectangle handed to `img.crop` (lines 85-88, 91). -/
structure CropBox where
  x0 : ℤ
  y0 : ℤ
  x1 : ℤ
  y1 : ℤ
deriving DecidableEq

/-- The recentered square crop region of one detection (lines 70-88). -/
def squareCropBox (W H : ℤ) (p : ℚ) (b : Box) : CropBox :=
  ⟨newCropX0 W H p b, newCropY0 W H p b,
   newCropX0 W H p b + squareSize W H p b,
   newCropY0 W H p b + squareSize W H p b⟩

/-- The crop filename `f"{img_path.stem}_{type}_{i}.png"` (line 95). -/
def squareName (stem : String) (ty : GenSquareType) (i : ℕ) : String :=
  stem ++ "_" ++ ty.str ++ "_" ++ toString i ++ ".png"

/-- `enumerate`: pair each list element with its index, starting at `n`. -/
def withIdx {α : Type} : ℕ → List α → List (ℕ × α)
  | _, [] => []
  | n, a :: as => (n, a) :: withIdx (n + 1) as

/-- One saved crop: its output path, the source crop region, and the
dimensions after the `resize((target_size, target_size))` call. -/
structure SquareItem where
  path : String
  crop : CropBox
  outW : ℤ
  outH : ℤ
deriving DecidableEq

/-- The body of the `for i, result in enumerate(results)` loop of `square`
(lines 63-98): one output item per detection result, in order. -/
def squareItems (ty : GenSquareType) (img : ImgPath) (outputDir : String)
    (targetSize : ℤ) (p : ℚ) (W H : ℤ) (results : List DetResult) :
    List SquareItem :=
  (withIdx 0 results).map fun ir =>
    { path := outputDir ++ "/" ++ squareName img.stem ty ir.1
      crop := squareCropBox W H p ir.2.box
      outW := targetSize
      outH := targetSize }

/-- Return value and filesystem effects of one `square` call. -/
structure SquareResult where
  ret : Option (List SquareItem)
  effects : List FsEffect
deriving DecidableEq

/-- The `square` operation (lines 33-102).  `dirExists` models
`output_dir.exists()` at call time; `results` is the detector's output. -/
def squareOp (ty : GenSquareType) (img : ImgPath) (outputDir : String)
    (dirExists : Bool) (targetSize : ℤ) (p : ℚ) (W H : ℤ)
    (results : List DetResult) : SquareResult :=
  if (detector ty).isNone then ⟨none, []⟩
  else if results = [] then ⟨none, []⟩
  else
    let mkEffs : List FsEffect :=
      if dirExists then [] else [FsEffect.ensureDir outputDir]
    let items := squareItems ty img outputDir targetSize p W H results
    let effs := mkEffs ++ items.map fun it => FsEffect.writeFile it.path
    if items = [] then ⟨none, effs⟩ else ⟨some items, effs⟩

/-- A padded box of `mask`/`highlight`: the detection box expanded by
`padding_ratio` of its own width/height and clamped to the image
(lines 125-134 and 167-176).  Coordinates are exact rationals. -/
structure QBox where
  x0 : ℚ
  y0 : ℚ
  x1 : ℚ
  y1 : ℚ
deriving DecidableEq

/-- `nx0 = max(0, x0 - pad_w)` and friends (lines 126-134, 168-176). -/
def paddedBox (W H : ℤ) (p : ℚ) (b : Box) : QBox :=
  ⟨max 0 ((b.x0 : ℚ) - ((b.x1 - b.x0 : ℤ) : ℚ) * p),
   max 0 ((b.y0 : ℚ) - ((b.y1 - b.y0 : ℤ) : ℚ) * p),
   min (W : ℚ) ((b.x1 : ℚ) + ((b.x1 - b.x0 : ℤ) : ℚ) * p),
   min (H : ℚ) ((b.y1 : ℚ) + ((b.y1 - b.y0 : ℤ) : ℚ) * p)⟩

/-- Return value and filesystem effects of a `mask` or `highlight` call. -/
structure PathResult where
  ret : String
  effects : List FsEffect
deriving DecidableEq

/-- The `mask` operation (lines 105-140).  Note: the source contains no
directory-creation call in `mask`, so its effect list never holds an
`ensureDir`. -/
def maskOp (ty : GenSquareType) (img : ImgPath) (outputDir : String)
    (p : ℚ) (color : String) (width : ℤ) (W H : ℤ)
    (results : List DetResult) : PathResult :=
  if (detector ty).isNone then ⟨img.raw, []⟩
  else if results = [] then ⟨img.raw, []⟩
  else
    let out := outputDir ++ "/" ++ img.stem ++ "_" ++ ty.str ++ "_marked.png"
    ⟨out, [FsEffect.writeFile out]⟩

/-- The `highlight` operation's return value and effects (lines 143-194).
The directory is created (if absent) just before saving. -/
def highlightOp (ty : GenSquareType) (img : ImgPath) (outputDir : String)
    (dirExists : Bool) (p : ℚ) (blurRadius : ℚ) (withMask : Bool)
    (maskColor : String) (maskWidth : ℤ) (W H : ℤ)
    (results : List DetResult) : PathResult :=
  if (detector ty).isNone then ⟨img.raw, []⟩
  else if results = [] then ⟨img.raw, []⟩
  else
    let out :=
      outputDir ++ "/" ++ img.stem ++ "_" ++ ty.str ++ "_highlighted.png"
    ⟨out, (if dirExists then [] else [FsEffect.ensureDir outputDir])
            ++ [FsEffect.writeFile out]⟩

/-- Membership of an integer pixel in the (inclusive) rectangle filled by
`mask_draw.rectangle(..., fill=255)` (line 178). -/
def inQBox (bx : QBox) (x y : ℤ) : Bool :=
  decide (bx.x0 ≤ (x : ℚ)) && decide ((x : ℚ) ≤ bx.x1) &&
  decide (bx.y0 ≤ (y : ℚ)) && decide ((y : ℚ) ≤ bx.y1)

/-- The single-channel mask of `highlight`: starts at 0 everywhere
(line 164) and each padded box is filled with 255 in turn (line 178). -/
def maskValue (boxes : List QBox) (x y : ℤ) : ℕ :=
  boxes.foldl (fun m bx => if inQBox bx x y then 255 else m) 0

/-- `Image.composite(image, blurred, mask)` per pixel: alpha blending by
the mask value, which the construction above only ever sets to 0 or 255. -/
def compositePixel (sharpPix blurPix : ℚ) (v : ℕ) : ℚ :=
  ((v : ℚ) * sharpPix + (255 - (v : ℚ)) * blurPix) / 255

/-- One pixel of the `highlighted` composite (lines 161-181), with the
sharp source image and its blurred copy abstract as pixel functions. -/
def highlightPixel (W H : ℤ) (p : ℚ) (results : List DetResult)
    (sharp blur : ℤ → ℤ → ℚ) (x y : ℤ) : ℚ :=
  compositePixel (sharp x y) (blur x y)
    (maskValue (results.map fun r => paddedBox W H p r.box) x y)

/-- `true` when every file write in the effect list happens while the
output directory exists (`dirExists` is the directory's state on entry). -/
def writesAreSafe (dirExists : Bool) : List FsEffect → Bool
  | [] => true
  | FsEffect.ensureDir _ :: rest => writesAreSafe true rest
  | FsEffect.writeFile _ :: rest => dirExists && writesAreSafe dirExists rest

/-! ### Helper lemmas -/

theorem pyInt_eq_floor {q : ℚ} (h : 0 ≤ q) : pyInt q = ⌊q⌋ := by
  rw [Rat.floor_def, pyInt]
  have hn : 0 ≤ q.num := Rat.num_nonneg.mpr h
  rcases hn.lt_or_eq with h1 | h1
  · rw [Int.sign_eq_one_of_pos h1, one_mul, Int.natCast_div,
      Int.natAbs_of_nonneg hn]
  · rw [← h1]
    simp

theorem pyInt_intCast (n : ℤ) : pyInt ((n : ℚ)) = n := by
  rw [pyInt, Rat.num_intCast, Rat.den_intCast]
  simp [Int.sign_mul_abs]

theorem pyInt_nonneg {q : ℚ} (h : 0 ≤ q) : 0 ≤ pyInt q := by
  rw [pyInt_eq_floor h]
  exact Int.floor_nonneg.mpr h

theorem expandedSize_eq_of {p : ℚ} {b : Box} {n : ℤ}
    (h : (baseSize b : ℚ) * (1 + p * 2) = (n : ℚ)) : expandedSize p b = n := by
  rw [expandedSize, h, pyInt_intCast]

theorem baseSize_nonneg {b : Box} (h : b.x0 ≤ b.x1) : 0 ≤ baseSize b := by
  rw [baseSize]
  omega

theorem expandedSize_nonneg {p : ℚ} {b : Box} (hb : 0 ≤ baseSize b)
    (hp : 0 ≤ p) : 0 ≤ expandedSize p b := by
  refine pyInt_nonneg (mul_nonneg ?_ ?_)
  · exact_mod_cast hb
  · linarith

theorem detector_isSome (ty : GenSquareType) : (detector ty).isNone = false := by
  cases ty <;> rfl

theorem withIdx_length {α : Type} (l : List α) : ∀ n : ℕ, (withIdx n l).length = l.length := by
  induction l with
  | nil => intro n; rfl
  | cons a as ih => intro n; simp [withIdx, ih]

theorem withIdx_getElem_fst {α : Type} (l : List α) :
    ∀ (n i : ℕ) (h : i < (withIdx n l).length), ((withIdx n l)[i]).1 = n + i := by
  induction l with
  | nil => intro n i h; simp [withIdx] at h
  | cons a as ih =>
    intro n i h
    cases i with
    | zero => simp [withIdx]
    | succ j =>
      have hj : j < (withIdx (n + 1) as).length := by
        simpa [withIdx] using h
      have := ih (n + 1) j hj
      simp [withIdx, this]
      omega

theorem squareItems_length (ty : GenSquareType) (img : ImgPath)
    (outputDir : String) (targetSize : ℤ) (p : ℚ) (W H : ℤ)
    (results : List DetResult) :
    (squareItems ty img outputDir targetSize p W H results).length
      = results.length := by
  rw [squareItems, List.length_map, withIdx_length]

theorem squareItems_getElem_path (ty : GenSquareType) (img : ImgPath)
    (outputDir : String) (targetSize : ℤ) (p : ℚ) (W H : ℤ)
    (results : List DetResult) (i : ℕ)
    (h : i < (squareItems ty img outputDir targetSize p W H results).length) :
    ((squareItems ty img outputDir targetSize p W H results)[i]).path
      = outputDir ++ "/" ++ squareName img.stem ty i := by
  have hi : i < (withIdx 0 results).length := by
    simpa [squareItems] using h
  simp only [squareItems, List.getElem_map]
  rw [withIdx_getElem_fst results 0 i hi]
  simp

theorem squareOp_ret (ty : GenSquareType) (img : ImgPath) (outputDir : String)
    (dirExists : Bool) (targetSize : ℤ) (p : ℚ) (W H : ℤ)
    (results : List DetResult) (hne : results ≠ []) :
    (squareOp ty img outputDir dirExists targetSize p W H results).ret
      = some (squareItems ty img outputDir targetSize p W H results) := by
  have hlen : (squareItems ty img outputDir targetSize p W H results).length ≠ 0 := by
    rw [squareItems_length]
    simpa using List.length_pos.mpr hne |>.ne'
  have hitems : squareItems ty img outputDir targetSize p W H results ≠ [] := by
    intro hcon
    exact hlen (by rw [hcon]; rfl)
  simp [squareOp, detector_isSome, hne, hitems]

theorem squareCropBox_bounds (W H : ℤ) (p : ℚ) (b : Box)
    (hx0 : 0 ≤ b.x0) (hx01 : b.x0 ≤ b.x1) (hx1 : b.x1 ≤ W)
    (hy0 : 0 ≤ b.y0) (hy01 : b.y0 ≤ b.y1) (hy1 : b.y1 ≤ H)
    (hp : 0 ≤ p) :
    0 ≤ (squareCropBox W H p b).x0
    ∧ (squareCropBox W H p b).x0 ≤ (squareCropBox W H p b).x1
    ∧ (squareCropBox W H p b).x1 ≤ W
    ∧ 0 ≤ (squareCropBox W H p b).y0
    ∧ (squareCropBox W H p b).y0 ≤ (squareCropBox W H p b).y1
    ∧ (squareCropBox W H p b).y1 ≤ H
    ∧ (squareCropBox W H p b).x1 - (squareCropBox W H p b).x0
        = (squareCropBox W H p b).y1 - (squareCropBox W H p b).y0
    ∧ (squareCropBox W H p b).x1 - (squareCropBox W H p b).x0
        ≤ expandedSize p b
    ∧ (squareCropBox W H p b).x1 - (squareCropBox W H p b).x0 ≤ min W H := by
  have hE : 0 ≤ expandedSize p b := expandedSize_nonneg (baseSize_nonneg hx01) hp
  have hfd : halfSize p b = expandedSize p b / 2 := by
    rw [halfSize, Int.fdiv_eq_ediv _ (by norm_num)]
  have hH0 : 0 ≤ halfSize p b := by rw [hfd]; omega
  have h2H : 2 * halfSize p b ≤ expandedSize p b := by rw [hfd]; omega
  have hcx : centerX b = (b.x0 + b.x1) / 2 := by
    rw [centerX, Int.fdiv_eq_ediv _ (by norm_num)]
  have hcy : centerY b = (b.y0 + b.y1) / 2 := by
    rw [centerY, Int.fdiv_eq_ediv _ (by norm_num)]
  have hcx0 : 0 ≤ centerX b := by rw [hcx]; omega
  have hcxW : centerX b ≤ W := by rw [hcx]; omega
  have hcy0 : 0 ≤ centerY b := by rw [hcy]; omega
  have hcyH : centerY b ≤ H := by rw [hcy]; omega
  have hsx : 0 ≤ clampedSpanX W p b ∧ clampedSpanX W p b ≤ W
      ∧ clampedSpanX W p b ≤ 2 * halfSize p b := by
    rw [clampedSpanX]
    refine ⟨?_, ?_, ?_⟩ <;> omega
  have hsy : 0 ≤ clampedSpanY H p b ∧ clampedSpanY H p b ≤ H
      ∧ clampedSpanY H p b ≤ 2 * halfSize p b := by
    rw [clampedSpanY]
    refine ⟨?_, ?_, ?_⟩ <;> omega
  have hs : 0 ≤ squareSize W H p b ∧ squareSize W H p b ≤ W
      ∧ squareSize W H p b ≤ H ∧ squareSize W H p b ≤ expandedSize p b := by
    rw [squareSize]
    refine ⟨?_, ?_, ?_, ?_⟩ <;> omega
  obtain ⟨hs0, hsW, hsH, hsE⟩ := hs
  simp only [squareCropBox, newCropX0, newCropY0]
  refine ⟨?_, ?_, ?_, ?_, ?_, ?_, ?_, ?_, ?_⟩ <;> omega

theorem paddedBox_bounds (W H : ℤ) (p : ℚ) (b : Box)
    (hx0 : 0 ≤ b.x0) (hx01 : b.x0 < b.x1) (hx1 : b.x1 ≤ W)
    (hy0 : 0 ≤ b.y0) (hy01 : b.y0 < b.y1) (hy1 : b.y1 ≤ H)
    (hp : 0 ≤ p) :
    0 ≤ (paddedBox W H p b).x0
    ∧ (paddedBox W H p b).x0 < (paddedBox W H p b).x1
    ∧ (paddedBox W H p b).x1 ≤ (W : ℚ)
    ∧ 0 ≤ (paddedBox W H p b).y0
    ∧ (paddedBox W H p b).y0 < (paddedBox W H p b).y1
    ∧ (paddedBox W H p b).y1 ≤ (H : ℚ) := by
  have hpW : (0 : ℚ) ≤ ((b.x1 - b.x0 : ℤ) : ℚ) * p := by
    refine mul_nonneg ?_ hp
    exact_mod_cast Int.sub_nonneg.mpr hx01.le
  have hpH : (0 : ℚ) ≤ ((b.y1 - b.y0 : ℤ) : ℚ) * p := by
    refine mul_nonneg ?_ hp
    exact_mod_cast Int.sub_nonneg.mpr hy01.le
  simp only [paddedBox]
  refine ⟨le_max_left _ _, ?_, min_le_left _ _, le_max_left _ _, ?_,
    min_le_left _ _⟩
  · calc max 0 ((b.x0 : ℚ) - ((b.x1 - b.x0 : ℤ) : ℚ) * p) ≤ (b.x0 : ℚ) :=
          max_le (by exact_mod_cast hx0) (by linarith)
      _ < (b.x1 : ℚ) := by exact_mod_cast hx01
      _ ≤ min (W : ℚ) ((b.x1 : ℚ) + ((b.x1 - b.x0 : ℤ) : ℚ) * p) :=
          le_min (by exact_mod_cast hx1) (by linarith)
  · calc max 0 ((b.y0 : ℚ) - ((b.y1 - b.y0 : ℤ) : ℚ) * p) ≤ (b.y0 : ℚ) :=
          max_le (by exact_mod_cast hy0) (by linarith)
      _ < (b.y1 : ℚ) := by exact_mod_cast hy01
      _ ≤ min (H : ℚ) ((b.y1 : ℚ) + ((b.y1 - b.y0 : ℤ) : ℚ) * p) :=
          le_min (by exact_mod_cast hy1) (by linarith)

theorem paddedBox_zero (W H : ℤ) (b : Box)
    (hx0 : 0 ≤ b.x0) (hx1 : b.x1 ≤ W) (hy0 : 0 ≤ b.y0) (hy1 : b.y1 ≤ H) :
    paddedBox W H 0 b = ⟨(b.x0 : ℚ), (b.y0 : ℚ), (b.x1 : ℚ), (b.y1 : ℚ)⟩ := by
  simp only [paddedBox, mul_zero, sub_zero, add_zero]
  rw [max_eq_right (show (0 : ℚ) ≤ (b.x0 : ℚ) by exact_mod_cast hx0),
    max_eq_right (show (0 : ℚ) ≤ (b.y0 : ℚ) by exact_mod_cast hy0),
    min_eq_right (show (b.x1 : ℚ) ≤ (W : ℚ) by exact_mod_cast hx1),
    min_eq_right (show (b.y1 : ℚ) ≤ (H : ℚ) by exact_mod_cast hy1)]

theorem maskValue_eq (boxes : List QBox) (x y : ℤ) :
    maskValue boxes x y
      = if boxes.any (fun bx => inQBox bx x y) then 255 else 0 := by
  rw [maskValue]
  suffices h : ∀ a : ℕ, boxes.foldl (fun m bx => if inQBox bx x y then 255 else m) a
      = if boxes.any (fun bx => inQBox bx x y) then 255 else a from h 0
  induction boxes with
  | nil => intro a; simp
  | cons hd tl ih =>
    intro a
    rw [List.foldl_cons, List.any_cons]
    cases h : inQBox hd x y <;> simp [h, ih]

theorem compositePixel_sharp (s bl : ℚ) : compositePixel s bl 255 = s := by
  rw [compositePixel]
  push_cast
  ring_nf

theorem compositePixel_blur (s bl : ℚ) : compositePixel s bl 0 = bl := by
  rw [compositePixel]
  push_cast
  ring_nf

theorem writesAreSafe_map_write {α : Type} (f : α → String) (l : List α) :
    writesAreSafe true (l.map fun a => FsEffect.writeFile (f a)) = true := by
  induction l with
  | nil => rfl
  | cons a as ih => simp [writesAreSafe, ih]

theorem expandedSize_corner : expandedSize (3/10) ⟨0, 0, 50, 50⟩ = 80 := by
  apply expandedSize_eq_of
  rw [show baseSize ⟨0, 0, 50, 50⟩ = 50 from by decide]
  push_cast
  norm_num

theorem cropEval_corner :
    squareCropBox 100 100 (3/10) ⟨0, 0, 50, 50⟩ = ⟨0, 0, 65, 65⟩ := by
  simp only [squareCropBox, newCropX0, newCropY0, squareSize, clampedSpanX,
    clampedSpanY, halfSize, centerX, centerY, expandedSize_corner]
  decide

theorem expandedSize_c2box : expandedSize (3/10) ⟨0, 0, 40, 40⟩ = 64 := by
  apply expandedSize_eq_of
  rw [show baseSize ⟨0, 0, 40, 40⟩ = 40 from by decide]
  push_cast
  norm_num

theorem cropEval_c2box :
    squareCropBox 100 100 (3/10) ⟨0, 0, 40, 40⟩ = ⟨0, 0, 52, 52⟩ := by
  simp only [squareCropBox, newCropX0, newCropY0, squareSize, clampedSpanX,
    clampedSpanY, halfSize, centerX, centerY, expandedSize_c2box]
  decide

theorem expandedSize_scenario : expandedSize (3/10) ⟨400, 300, 600, 500⟩ = 320 := by
  apply expandedSize_eq_of
  rw [show baseSize ⟨400, 300, 600, 500⟩ = 200 from by decide]
  push_cast
  norm_num

theorem cropEval_scenario :
    squareCropBox 1000 800 (3/10) ⟨400, 300, 600, 500⟩ = ⟨340, 240, 660, 560⟩ := by
  simp only [squareCropBox, newCropX0, newCropY0, squareSize, clampedSpanX,
    clampedSpanY, halfSize, centerX, centerY, expandedSize_scenario]
  decide

theorem expandedSize_degenerate : expandedSize (3/10) ⟨10, 10, 10, 10⟩ = 0 := by
  apply expandedSize_eq_of
  rw [show baseSize ⟨10, 10, 10, 10⟩ = 0 from by decide]
  push_cast
  norm_num

theorem cropEval_degenerate :
    squareCropBox 100 100 (3/10) ⟨10, 10, 10, 10⟩ = ⟨10, 10, 10, 10⟩ := by
  simp only [squareCropBox, newCropX0, newCropY0, squareSize, clampedSpanX,
    clampedSpanY, halfSize, centerX, centerY, expandedSize_degenerate]
  decide

theorem expandedSize_tiny : expandedSize (3/10) ⟨10, 10, 11, 11⟩ = 1 := by
  rw [expandedSize, show baseSize ⟨10, 10, 11, 11⟩ = 1 from by decide]
  rw [pyInt_eq_floor (by push_cast; norm_num), Int.floor_eq_iff]
  push_cast
  norm_num

theorem cropEval_tiny :
    squareCropBox 100 100 (3/10) ⟨10, 10, 11, 11⟩ = ⟨10, 10, 10, 10⟩ := by
  simp only [squareCropBox, newCropX0, newCropY0, squareSize, clampedSpanX,
    clampedSpanY, halfSize, centerX, centerY, expandedSize_tiny]
  decide

/-! ### Claim theorems -/

/-- C1 (counterexample): for the corner box `(0,0,50,50)` in a 100x100
image with padding ratio 3/10, the recentered crop square's side is NOT 80
(even though 80 is at most min(width, height)): independent clamping first
shrinks the naive crop to a 65-wide span, and the recentering step keeps
that smaller size. -/
theorem square_corner_side_ne_80 :
    (squareCropBox 100 100 (3/10) ⟨0, 0, 50, 50⟩).x1
      - (squareCropBox 100 100 (3/10) ⟨0, 0, 50, 50⟩).x0 ≠ 80 := by
  rw [cropEval_corner]
  decide

/-- C1 (amended): for the corner box `(0,0,50,50)` in a 100x100 image with
padding ratio 3/10, the expanded size is 80, but after clamping the naive
square to the image the surviving span is 65, so the recentered crop is
exactly the 65x65 square starting at the origin `(0,0)`. -/
theorem square_corner_recenter :
    expandedSize (3/10) ⟨0, 0, 50, 50⟩ = 80
    ∧ squareCropBox 100 100 (3/10) ⟨0, 0, 50, 50⟩ = ⟨0, 0, 65, 65⟩ :=
  ⟨expandedSize_corner, cropEval_corner⟩

/-- C2 (counterexample): the box `(0,0,40,40)` lies fully inside a 100x100
image, yet with padding ratio 3/10 the crop square's side (52) differs from
`clamp(baseSize*(1+2*paddingRatio), 1, min(W,H))` = 64: edge clamping
happens before the square size is fixed, so the side can be smaller. -/
theorem square_side_ne_clamp_formula :
    (squareCropBox 100 100 (3/10) ⟨0, 0, 40, 40⟩).x1
        - (squareCropBox 100 100 (3/10) ⟨0, 0, 40, 40⟩).x0
      ≠ max 1 (min (expandedSize (3/10) ⟨0, 0, 40, 40⟩) (min 100 100)) := by
  rw [cropEval_c2box, expandedSize_c2box]
  decide

/-- C2 (amended): for every detection box fully inside the image and any
nonnegative padding ratio, the crop region is a square, lies fully inside
the image bounds, and its side length is AT MOST
`clamp(baseSize*(1+2*paddingRatio), 1, min(W,H))` (equality can fail near
the borders and for odd expanded sizes). -/
theorem square_crop_contained_and_bounded (W H : ℤ) (p : ℚ) (b : Box)
    (hx0 : 0 ≤ b.x0) (hx01 : b.x0 < b.x1) (hx1 : b.x1 ≤ W)
    (hy0 : 0 ≤ b.y0) (hy01 : b.y0 < b.y1) (hy1 : b.y1 ≤ H)
    (hp : 0 ≤ p) :
    (0 ≤ (squareCropBox W H p b).x0
      ∧ (squareCropBox W H p b).x0 ≤ (squareCropBox W H p b).x1
      ∧ (squareCropBox W H p b).x1 ≤ W
      ∧ 0 ≤ (squareCropBox W H p b).y0
      ∧ (squareCropBox W H p b).y0 ≤ (squareCropBox W H p b).y1
      ∧ (squareCropBox W H p b).y1 ≤ H)
    ∧ (squareCropBox W H p b).x1 - (squareCropBox W H p b).x0
        = (squareCropBox W H p b).y1 - (squareCropBox W H p b).y0
    ∧ (squareCropBox W H p b).x1 - (squareCropBox W H p b).x0
        ≤ max 1 (min (expandedSize p b) (min W H)) := by
  obtain ⟨h1, h2, h3, h4, h5, h6, h7, h8, h9⟩ :=
    squareCropBox_bounds W H p b hx0 hx01.le hx1 hy0 hy01.le hy1 hp
  exact ⟨⟨h1, h2, h3, h4, h5, h6⟩, h7, by omega⟩

/-- C2 (witness): the amended containment/bound statement at the concrete
box `(2,2,5,5)` inside a 10x10 image with padding ratio 3/10. -/
theorem square_crop_contained_and_bounded_witness :
    (0 ≤ (squareCropBox 10 10 (3/10) ⟨2, 2, 5, 5⟩).x0
      ∧ (squareCropBox 10 10 (3/10) ⟨2, 2, 5, 5⟩).x0
          ≤ (squareCropBox 10 10 (3/10) ⟨2, 2, 5, 5⟩).x1
      ∧ (squareCropBox 10 10 (3/10) ⟨2, 2, 5, 5⟩).x1 ≤ 10
      ∧ 0 ≤ (squareCropBox 10 10 (3/10) ⟨2, 2, 5, 5⟩).y0
      ∧ (squareCropBox 10 10 (3/10) ⟨2, 2, 5, 5⟩).y0
          ≤ (squareCropBox 10 10 (3/10) ⟨2, 2, 5, 5⟩).y1
      ∧ (squareCropBox 10 10 (3/10) ⟨2, 2, 5, 5⟩).y1 ≤ 10)
    ∧ (squareCropBox 10 10 (3/10) ⟨2, 2, 5, 5⟩).x1
          - (squareCropBox 10 10 (3/10) ⟨2, 2, 5, 5⟩).x0
        = (squareCropBox 10 10 (3/10) ⟨2, 2, 5, 5⟩).y1
          - (squareCropBox 10 10 (3/10) ⟨2, 2, 5, 5⟩).y0
    ∧ (squareCropBox 10 10 (3/10) ⟨2, 2, 5, 5⟩).x1
          - (squareCropBox 10 10 (3/10) ⟨2, 2, 5, 5⟩).x0
        ≤ max 1 (min (expandedSize (3/10) ⟨2, 2, 5, 5⟩) (min 10 10)) :=
  square_crop_contained_and_bounded 10 10 (3/10) ⟨2, 2, 5, 5⟩
    (by decide) (by decide) (by decide) (by decide) (by decide) (by decide)
    (by norm_num)

/-- C3 (counterexample): in the 1000x800 scenario with box
`(400,300,600,500)` and padding ratio 3/10, the source crop's side is not
260: the expansion is `baseSize*(1+2*0.3) = 200*1.6 = 320`. -/
theorem square_scenario_side_ne_260 :
    (squareCropBox 1000 800 (3/10) ⟨400, 300, 600, 500⟩).x1
      - (squareCropBox 1000 800 (3/10) ⟨400, 300, 600, 500⟩).x0 ≠ 260 := by
  rw [cropEval_scenario]
  decide

/-- C3 (amended): for a 1000x800 image with the single detection box
`(400,300,600,500)`, `square` with target size 512 and padding ratio 3/10
produces exactly one output named `img_faces_0.png` (stem `img`, category
`faces`), resized to 512x512, whose source crop region before resizing is
the 320x320 square `(340,240,660,560)` centered at `(500,400)`. -/
theorem square_scenario_output :
    squareOp GenSquareType.faces ⟨"img.png", "img"⟩ "out" true 512 (3/10)
        1000 800 [⟨⟨400, 300, 600, 500⟩, "face", 9/10⟩]
      = ⟨some [⟨"out/img_faces_0.png", ⟨340, 240, 660, 560⟩, 512, 512⟩],
          [FsEffect.writeFile "out/img_faces_0.png"]⟩
    ∧ (squareCropBox 1000 800 (3/10) ⟨400, 300, 600, 500⟩).x0
        + (squareCropBox 1000 800 (3/10) ⟨400, 300, 600, 500⟩).x1 = 2 * 500
    ∧ (squareCropBox 1000 800 (3/10) ⟨400, 300, 600, 500⟩).y0
        + (squareCropBox 1000 800 (3/10) ⟨400, 300, 600, 500⟩).y1 = 2 * 400
    ∧ (squareCropBox 1000 800 (3/10) ⟨400, 300, 600, 500⟩).x1
        - (squareCropBox 1000 800 (3/10) ⟨400, 300, 600, 500⟩).x0 = 320 := by
  have hitems : squareItems GenSquareType.faces ⟨"img.png", "img"⟩ "out" 512
      (3/10) 1000 800 [⟨⟨400, 300, 600, 500⟩, "face", 9/10⟩]
      = [⟨"out/img_faces_0.png", ⟨340, 240, 660, 560⟩, 512, 512⟩] := by
    simp only [squareItems, withIdx, List.map_cons, List.map_nil,
      cropEval_scenario]
    decide
  refine ⟨?_, ?_, ?_, ?_⟩
  · simp [squareOp, detector_isSome, hitems]
  · rw [cropEval_scenario]
    decide
  · rw [cropEval_scenario]
    decide
  · rw [cropEval_scenario]
    decide

/-- C4 (counterexample): the zero-area detection box `(10,10,10,10)` makes
the computed crop square collapse to zero area, yet `square` does NOT skip
it: the region still produces an output entry (the code crops, resizes and
saves unconditionally). -/
theorem square_degenerate_region_emitted :
    (squareCropBox 100 100 (3/10) ⟨10, 10, 10, 10⟩).x1
        - (squareCropBox 100 100 (3/10) ⟨10, 10, 10, 10⟩).x0 = 0
    ∧ (squareOp GenSquareType.faces ⟨"img.png", "img"⟩ "out" true 512 (3/10)
          100 100 [⟨⟨10, 10, 10, 10⟩, "x", 1/2⟩]).ret
        = some [⟨"out/img_faces_0.png", ⟨10, 10, 10, 10⟩, 512, 512⟩] := by
  constructor
  · rw [cropEval_degenerate]
    decide
  · have hitems : squareItems GenSquareType.faces ⟨"img.png", "img"⟩ "out" 512
        (3/10) 100 100 [⟨⟨10, 10, 10, 10⟩, "x", 1/2⟩]
        = [⟨"out/img_faces_0.png", ⟨10, 10, 10, 10⟩, 512, 512⟩] := by
      simp only [squareItems, withIdx, List.map_cons, List.map_nil,
        cropEval_degenerate]
      decide
    rw [squareOp_ret GenSquareType.faces ⟨"img.png", "img"⟩ "out" true 512
      (3/10) 100 100 [⟨⟨10, 10, 10, 10⟩, "x", 1/2⟩] (by simp), hitems]

/-- C4 (amended): no region is ever skipped: for every non-empty detector
result list, `square` emits exactly one output entry per detection —
including regions whose computed square collapses to non-positive area —
and therefore never reports overall failure for a non-empty list. -/
theorem square_no_region_skipped (ty : GenSquareType) (img : ImgPath)
    (outputDir : String) (dirExists : Bool) (targetSize : ℤ) (p : ℚ)
    (W H : ℤ) (results : List DetResult) (hne : results ≠ []) :
    (squareOp ty img outputDir dirExists targetSize p W H results).ret
      = some (squareItems ty img outputDir targetSize p W H results)
    ∧ (squareItems ty img outputDir targetSize p W H results).length
      = results.length :=
  ⟨squareOp_ret ty img outputDir dirExists targetSize p W H results hne,
   squareItems_length ty img outputDir targetSize p W H results⟩

/-- C4 (witness): the amended no-skip statement at a single zero-area
detection box. -/
theorem square_no_region_skipped_witness :
    (squareOp GenSquareType.head ⟨"a.png", "a"⟩ "o" false 512 (3/10) 100 100
        [⟨⟨7, 7, 7, 7⟩, "x", 1/2⟩]).ret
      = some (squareItems GenSquareType.head ⟨"a.png", "a"⟩ "o" 512 (3/10)
          100 100 [⟨⟨7, 7, 7, 7⟩, "x", 1/2⟩])
    ∧ (squareItems GenSquareType.head ⟨"a.png", "a"⟩ "o" 512 (3/10) 100 100
        [⟨⟨7, 7, 7, 7⟩, "x", 1/2⟩]).length
      = ([⟨⟨7, 7, 7, 7⟩, "x", 1/2⟩] : List DetResult).length :=
  square_no_region_skipped GenSquareType.head ⟨"a.png", "a"⟩ "o" false 512
    (3/10) 100 100 [⟨⟨7, 7, 7, 7⟩, "x", 1/2⟩] (by simp)

/-- C5 (counterexample): the valid in-bounds detection box `(10,10,11,11)`
in a 100x100 image with padding ratio 3/10 yields, in `square`, a derived
crop box with `x0 = x1` (the expanded size 1 floor-halves to 0), violating
the strict invariant `x0 < x1`. -/
theorem square_crop_strict_invariant_fails :
    ¬ (squareCropBox 100 100 (3/10) ⟨10, 10, 11, 11⟩).x0
        < (squareCropBox 100 100 (3/10) ⟨10, 10, 11, 11⟩).x1 := by
  rw [cropEval_tiny]
  decide

/-- C5 (amended): for every detection box fully inside the image and any
nonnegative padding ratio, the padded boxes of `mask`/`highlight` satisfy
the strict invariant `0 <= x0 < x1 <= W` and `0 <= y0 < y1 <= H`, while the
crop box of `square` satisfies only the weak form `0 <= x0 <= x1 <= W`,
`0 <= y0 <= y1 <= H` (equality is possible for tiny boxes). -/
theorem padded_box_invariant_inside (W H : ℤ) (p : ℚ) (b : Box)
    (hx0 : 0 ≤ b.x0) (hx01 : b.x0 < b.x1) (hx1 : b.x1 ≤ W)
    (hy0 : 0 ≤ b.y0) (hy01 : b.y0 < b.y1) (hy1 : b.y1 ≤ H)
    (hp : 0 ≤ p) :
    (0 ≤ (paddedBox W H p b).x0
      ∧ (paddedBox W H p b).x0 < (paddedBox W H p b).x1
      ∧ (paddedBox W H p b).x1 ≤ (W : ℚ)
      ∧ 0 ≤ (paddedBox W H p b).y0
      ∧ (paddedBox W H p b).y0 < (paddedBox W H p b).y1
      ∧ (paddedBox W H p b).y1 ≤ (H : ℚ))
    ∧ (0 ≤ (squareCropBox W H p b).x0
      ∧ (squareCropBox W H p b).x0 ≤ (squareCropBox W H p b).x1
      ∧ (squareCropBox W H p b).x1 ≤ W
      ∧ 0 ≤ (squareCropBox W H p b).y0
      ∧ (squareCropBox W H p b).y0 ≤ (squareCropBox W H p b).y1
      ∧ (squareCropBox W H p b).y1 ≤ H) := by
  obtain ⟨h1, h2, h3, h4, h5, h6, _, _, _⟩ :=
    squareCropBox_bounds W H p b hx0 hx01.le hx1 hy0 hy01.le hy1 hp
  exact ⟨paddedBox_bounds W H p b hx0 hx01 hx1 hy0 hy01 hy1 hp,
    h1, h2, h3, h4, h5, h6⟩

/-- C5 (witness): the amended invariant at the box `(2,2,5,6)` inside a
10x10 image with padding ratio 1/5. -/
theorem padded_box_invariant_inside_witness :
    (0 ≤ (paddedBox 10 10 (1/5) ⟨2, 2, 5, 6⟩).x0
      ∧ (paddedBox 10 10 (1/5) ⟨2, 2, 5, 6⟩).x0
          < (paddedBox 10 10 (1/5) ⟨2, 2, 5, 6⟩).x1
      ∧ (paddedBox 10 10 (1/5) ⟨2, 2, 5, 6⟩).x1 ≤ ((10 : ℤ) : ℚ)
      ∧ 0 ≤ (paddedBox 10 10 (1/5) ⟨2, 2, 5, 6⟩).y0
      ∧ (paddedBox 10 10 (1/5) ⟨2, 2, 5, 6⟩).y0
          < (paddedBox 10 10 (1/5) ⟨2, 2, 5, 6⟩).y1
      ∧ (paddedBox 10 10 (1/5) ⟨2, 2, 5, 6⟩).y1 ≤ ((10 : ℤ) : ℚ))
    ∧ (0 ≤ (squareCropBox 10 10 (1/5) ⟨2, 2, 5, 6⟩).x0
      ∧ (squareCropBox 10 10 (1/5) ⟨2, 2, 5, 6⟩).x0
          ≤ (squareCropBox 10 10 (1/5) ⟨2, 2, 5, 6⟩).x1
      ∧ (squareCropBox 10 10 (1/5) ⟨2, 2, 5, 6⟩).x1 ≤ 10
      ∧ 0 ≤ (squareCropBox 10 10 (1/5) ⟨2, 2, 5, 6⟩).y0
      ∧ (squareCropBox 10 10 (1/5) ⟨2, 2, 5, 6⟩).y0
          ≤ (squareCropBox 10 10 (1/5) ⟨2, 2, 5, 6⟩).y1
      ∧ (squareCropBox 10 10 (1/5) ⟨2, 2, 5, 6⟩).y1 ≤ 10) :=
  padded_box_invariant_inside 10 10 (1/5) ⟨2, 2, 5, 6⟩
    (by decide) (by decide) (by decide) (by decide) (by decide) (by decide)
    (by norm_num)

/-- C6: when the detector returns an empty result list, `square` returns
the failure indicator `none` (not an empty success list), while `mask` and
`highlight` return the untouched original source path and perform no
filesystem effect (no file write, no directory creation). -/
theorem empty_detections_behaviour (ty : GenSquareType) (img : ImgPath)
    (outputDir : String) (dirExists : Bool) (targetSize : ℤ) (p : ℚ)
    (color : String) (width : ℤ) (blurRadius : ℚ) (withMask : Bool)
    (maskColor : String) (maskWidth : ℤ) (W H : ℤ) :
    squareOp ty img outputDir dirExists targetSize p W H [] = ⟨none, []⟩
    ∧ maskOp ty img outputDir p color width W H [] = ⟨img.raw, []⟩
    ∧ highlightOp ty img outputDir dirExists p blurRadius withMask maskColor
        maskWidth W H [] = ⟨img.raw, []⟩ := by
  refine ⟨?_, ?_, ?_⟩ <;>
    simp [squareOp, maskOp, highlightOp, detector_isSome]

/-- C7 (counterexample): `mask` writes its output file without ever
creating the output directory: when the directory does not exist at call
time, the write is not preceded by any directory creation. -/
theorem mask_writes_without_dir_creation :
    writesAreSafe false
        (maskOp GenSquareType.faces ⟨"img.png", "img"⟩ "out" (1/5) "red" 8
          100 100 [⟨⟨1, 1, 2, 2⟩, "lbl", 1/2⟩]).effects
      = false := by
  simp [maskOp, detector_isSome, writesAreSafe]

/-- C7 (amended): `square` and `highlight` create the output directory
(recursively, if missing) before writing, so each of their file writes
happens with the directory present, for every input; `mask` performs no
directory creation, so its write is only safe when the directory already
exists at call time. -/
theorem output_dir_creation_by_op (ty : GenSquareType) (img : ImgPath)
    (outputDir : String) (dirExists : Bool) (targetSize : ℤ) (p : ℚ)
    (color : String) (width : ℤ) (blurRadius : ℚ) (withMask : Bool)
    (maskColor : String) (maskWidth : ℤ) (W H : ℤ)
    (results : List DetResult) :
    writesAreSafe dirExists
        (squareOp ty img outputDir dirExists targetSize p W H results).effects
      = true
    ∧ writesAreSafe dirExists
        (highlightOp ty img outputDir dirExists p blurRadius withMask
          maskColor maskWidth W H results).effects
      = true
    ∧ writesAreSafe true
        (maskOp ty img outputDir p color width W H results).effects
      = true := by
  by_cases hres : results = []
  · refine ⟨?_, ?_, ?_⟩ <;>
      simp [squareOp, maskOp, highlightOp, detector_isSome, hres, writesAreSafe]
  · refine ⟨?_, ?_, ?_⟩
    · have heff : (squareOp ty img outputDir dirExists targetSize p W H
          results).effects
          = (if dirExists then [] else [FsEffect.ensureDir outputDir])
            ++ (squareItems ty img outputDir targetSize p W H results).map
                fun it => FsEffect.writeFile it.path := by
        simp [squareOp, detector_isSome, hres]
        split <;> rfl
      rw [heff]
      cases dirExists <;>
        simp [writesAreSafe,
          writesAreSafe_map_write (fun it : SquareItem => it.path)]
    · simp [highlightOp, detector_isSome, hres]
      cases dirExists <;> simp [writesAreSafe]
    · simp [maskOp, detector_isSome, hres, writesAreSafe]

/-- C8 (counterexample): for the detection box `(0,0,150,50)` whose `x1`
exceeds the 100-pixel image width (the detector does not guarantee clamped
boxes), the padded box at padding ratio 0 does NOT equal the raw
coordinates: its right edge is clamped to the image width. -/
theorem padding_zero_out_of_bounds_clamped :
    (paddedBox 100 100 0 ⟨0, 0, 150, 50⟩).x1 ≠ 150 := by
  simp only [paddedBox, mul_zero, add_zero]
  push_cast
  norm_num [min_def]

/-- C8 (amended): for every detection box fully inside the image bounds,
the padded box of `mask`/`highlight` at padding ratio 0 equals the raw
detection coordinates exactly (no expansion, and clamping is a no-op). -/
theorem padding_zero_exact_inside (W H : ℤ) (b : Box)
    (hx0 : 0 ≤ b.x0) (hx1 : b.x1 ≤ W) (hy0 : 0 ≤ b.y0) (hy1 : b.y1 ≤ H) :
    paddedBox W H 0 b = ⟨(b.x0 : ℚ), (b.y0 : ℚ), (b.x1 : ℚ), (b.y1 : ℚ)⟩ :=
  paddedBox_zero W H b hx0 hx1 hy0 hy1

/-- C8 (witness): the padding-0 identity at the box `(1,2,3,4)` inside a
10x10 image. -/
theorem padding_zero_exact_inside_witness :
    paddedBox 10 10 0 ⟨1, 2, 3, 4⟩
      = ⟨((1 : ℤ) : ℚ), ((2 : ℤ) : ℚ), ((3 : ℤ) : ℚ), ((4 : ℤ) : ℚ)⟩ :=
  padding_zero_exact_inside 10 10 ⟨1, 2, 3, 4⟩
    (by decide) (by decide) (by decide) (by decide)

/-- C9: each pixel of the `highlight` composite is a binary per-pixel
selection (not alpha blending): the sharp source pixel exactly when the
pixel lies inside the union of the padded boxes (the mask region filled to
255), and the blurred pixel exactly when it lies outside all of them; for
overlapping detections the sharp region is thus the union of their padded
boxes. -/
theorem highlight_binary_union_select (W H : ℤ) (p : ℚ)
    (results : List DetResult) (sharp blur : ℤ → ℤ → ℚ) (x y : ℤ) :
    highlightPixel W H p results sharp blur x y
      = if (results.map fun r => paddedBox W H p r.box).any
            (fun bx => inQBox bx x y)
        then sharp x y else blur x y := by
  rw [highlightPixel, maskValue_eq]
  cases h : (results.map fun r => paddedBox W H p r.box).any
      (fun bx => inQBox bx x y) <;>
    simp [h, compositePixel_sharp, compositePixel_blur]

/-- C10: for every non-empty detector result list, `square` returns `some`
list holding exactly one output per detection, in input order, with the
filename index equal to the detection's position — in particular the list
is never empty, so the final empty-result failure branch is unreachable. -/
theorem square_one_output_per_detection (ty : GenSquareType) (img : ImgPath)
    (outputDir : String) (dirExists : Bool) (targetSize : ℤ) (p : ℚ)
    (W H : ℤ) (results : List DetResult) (hne : results ≠ []) :
    (squareOp ty img outputDir dirExists targetSize p W H results).ret
      = some (squareItems ty img outputDir targetSize p W H results)
    ∧ (squareItems ty img outputDir targetSize p W H results).length
      = results.length
    ∧ ∀ (i : ℕ)
        (h : i < (squareItems ty img outputDir targetSize p W H
          results).length),
        ((squareItems ty img outputDir targetSize p W H results).get
            ⟨i, h⟩).path
          = outputDir ++ "/" ++ squareName img.stem ty i :=
  ⟨squareOp_ret ty img outputDir dirExists targetSize p W H results hne,
   squareItems_length ty img outputDir targetSize p W H results,
   fun i h => by
     rw [List.get_eq_getElem]
     exact squareItems_getElem_path ty img outputDir targetSize p W H
       results i h⟩

/-- C10 (witness): the one-output-per-detection statement at a concrete
two-detection list. -/
theorem square_one_output_per_detection_witness :
    (squareOp GenSquareType.head ⟨"a.png", "a"⟩ "o" false 512 (3/10) 100 100
        [⟨⟨0, 0, 4, 4⟩, "u", 1/2⟩, ⟨⟨1, 1, 3, 3⟩, "v", 1/2⟩]).ret
      = some (squareItems GenSquareType.head ⟨"a.png", "a"⟩ "o" 512 (3/10)
          100 100 [⟨⟨0, 0, 4, 4⟩, "u", 1/2⟩, ⟨⟨1, 1, 3, 3⟩, "v", 1/2⟩])
    ∧ (squareItems GenSquareType.head ⟨"a.png", "a"⟩ "o" 512 (3/10) 100 100
        [⟨⟨0, 0, 4, 4⟩, "u", 1/2⟩, ⟨⟨1, 1, 3, 3⟩, "v", 1/2⟩]).length
      = ([⟨⟨0, 0, 4, 4⟩, "u", 1/2⟩, ⟨⟨1, 1, 3, 3⟩, "v", 1/2⟩]
          : List DetResult).length
    ∧ ∀ (i : ℕ)
        (h : i < (squareItems GenSquareType.head ⟨"a.png", "a"⟩ "o" 512
          (3/10) 100 100
          [⟨⟨0, 0, 4, 4⟩, "u", 1/2⟩, ⟨⟨1, 1, 3, 3⟩, "v", 1/2⟩]).length),
        ((squareItems GenSquareType.head ⟨"a.png", "a"⟩ "o" 512 (3/10) 100
            100 [⟨⟨0, 0, 4, 4⟩, "u", 1/2⟩, ⟨⟨1, 1, 3, 3⟩, "v", 1/2⟩]).get
            ⟨i, h⟩).path
          = "o" ++ "/" ++ squareName "a" GenSquareType.head i :=
  square_one_output_per_detection GenSquareType.head ⟨"a.png", "a"⟩ "o"
    false 512 (3/10) 100 100
    [⟨⟨0, 0, 4, 4⟩, "u", 1/2⟩, ⟨⟨1, 1, 3, 3⟩, "v", 1/2⟩] (by simp)
